import Mathlib

/-
  Shallow embedding of the carbon-aware scheduler in
  src/scheduler_embodied_aware.py.

  Numeric values are modelled as exact rationals (ℚ).  Python `assert`
  statements are modelled by returning `Option`/`Except`: a failing
  assertion (AssertionError) or a missing dictionary key (KeyError)
  yields an error value instead of a result.
-/

namespace CarbonSched

/-- The three hardware-age buckets of SERVER_SPECS. -/
inductive AgeClass where
  | new
  | medium
  | old
deriving DecidableEq, Repr

/-- One entry of the SERVER_SPECS table (src/scheduler_embodied_aware.py,
lines 34-50).  Note that there is no `base_power_w` field: the module
comment says power is calculated, never stored. -/
structure ServerSpec where
  age_years : ℚ
  total_embodied_kg : ℚ
  expected_lifetime_years : ℚ
deriving DecidableEq, Repr

/-- SERVER_SPECS: new = 0.5y, medium = 2.5y, old = 4.0y; all 660 kg
embodied over a 5-year lifetime. -/
def SERVER_SPECS : AgeClass → ServerSpec
  | AgeClass.new => ⟨1/2, 660, 5⟩
  | AgeClass.medium => ⟨5/2, 660, 5⟩
  | AgeClass.old => ⟨4, 660, 5⟩

/-- Dictionary-style field access on a SERVER_SPECS entry, as Python's
`specs["key"]`.  Returns `none` (KeyError) for a key that is not stored. -/
def specField (a : AgeClass) (key : String) : Option ℚ :=
  if key = "age_years" then some (SERVER_SPECS a).age_years
  else if key = "total_embodied_kg" then some (SERVER_SPECS a).total_embodied_kg
  else if key = "expected_lifetime_years" then some (SERVER_SPECS a).expected_lifetime_years
  else none

/-- BASE_POWER_W = 65 W. -/
def BASE_POWER_W : ℚ := 65

/-- EFFICIENCY_DEGRADATION_RATE = 0.12 per year. -/
def EFFICIENCY_DEGRADATION_RATE : ℚ := 12/100

/-- PUE_DEFAULT = 1.2. -/
def PUE_DEFAULT : ℚ := 6/5

/-- NEW_HARDWARE_CARBON_MULTIPLIER = 2.0. -/
def NEW_HARDWARE_CARBON_MULTIPLIER : ℚ := 2

/-- The four region names of REGION_DATACENTERS. -/
inductive Region where
  | Northern
  | Western
  | Southern
  | Eastern
deriving DecidableEq, Repr

/-- One entry of the REGION_DATACENTERS table: latency, cost factor and
the per-age-class `available` server count. -/
structure Datacenter where
  latency_ms : ℚ
  cost_factor : ℚ
  available : AgeClass → Int

/-- REGION_DATACENTERS (src/scheduler_embodied_aware.py, lines 56-93). -/
def REGION_DATACENTERS : Region → Datacenter
  | Region.Northern =>
      ⟨70, 3, fun a => match a with
        | AgeClass.new => 10 | AgeClass.medium => 20 | AgeClass.old => 30⟩
  | Region.Western =>
      ⟨90, 14/5, fun a => match a with
        | AgeClass.new => 15 | AgeClass.medium => 15 | AgeClass.old => 20⟩
  | Region.Southern =>
      ⟨80, 16/5, fun a => match a with
        | AgeClass.new => 20 | AgeClass.medium => 25 | AgeClass.old => 15⟩
  | Region.Eastern =>
      ⟨120, 5/2, fun a => match a with
        | AgeClass.new => 8 | AgeClass.medium => 12 | AgeClass.old => 40⟩

/-- calculate_carbon_debt_ratio (lines 109-125): 0 once age has reached
the lifetime, otherwise (L - t) / L. -/
def calculate_carbon_debt_ratio (age_years expected_lifetime_years : ℚ) : ℚ :=
  if expected_lifetime_years ≤ age_years then 0
  else (expected_lifetime_years - age_years) / expected_lifetime_years

/-- The closed-form power value that calculate_power_consumption computes
before its internal assertion. -/
def powerFormula (base_power_w age_years alpha : ℚ) : ℚ :=
  base_power_w * (1 + min (alpha * age_years) (3/5))

/-- calculate_power_consumption (lines 128-151).  The internal assertion
`actual_power <= base_power_w * 1.60` is modelled as returning `none`
(AssertionError) when it fails. -/
def calculate_power_consumption (base_power_w age_years alpha : ℚ) : Option ℚ :=
  let degradation_factor := min (alpha * age_years) (3/5)
  let actual_power := base_power_w * (1 + degradation_factor)
  if actual_power ≤ base_power_w * (8/5) then some actual_power else none

/-- calculate_amortized_embodied_carbon (lines 154-200).  Amortizes the
total embodied mass over the full lifetime (365.25 days/year = 1461/4),
multiplies by duration and by the debt ratio.  The reachable internal
assertion `0 <= carbon_g <= max(1.0, duration_hours * 100)` is modelled
as returning `none` (AssertionError) when it fails; the second assertion
after the first `return` statement is dead code and is not modelled. -/
def calculate_amortized_embodied_carbon
    (total_embodied_kg age_years expected_lifetime_years duration_hours : ℚ) : Option ℚ :=
  let debt_ratio := calculate_carbon_debt_ratio age_years expected_lifetime_years
  let total_lifetime_hours := expected_lifetime_years * (1461/4) * 24
  let carbon_per_hour_g := (total_embodied_kg * 1000) / total_lifetime_hours
  let task_carbon_g := carbon_per_hour_g * duration_hours
  let carbon_g := task_carbon_g * debt_ratio
  let max_reasonable := max 1 (duration_hours * 100)
  if 0 ≤ carbon_g ∧ carbon_g ≤ max_reasonable then some carbon_g else none

/-- calculate_operational_carbon (lines 209-224):
energy_kwh * carbon_intensity * pue with energy_kwh = power*hours/1000. -/
def calculate_operational_carbon (power_w duration_hours carbon_intensity pue : ℚ) : ℚ :=
  (power_w * duration_hours) / 1000 * carbon_intensity * pue

/-- calculate_total_carbon (lines 227-267): operational + embodied for one
age class; threads the assertions of the two sub-calculations. -/
def calculate_total_carbon (server_age : AgeClass) (duration_seconds carbon_intensity : ℚ) :
    Option (ℚ × ℚ × ℚ) :=
  let specs := SERVER_SPECS server_age
  let duration_hours := duration_seconds / 3600
  match calculate_power_consumption BASE_POWER_W specs.age_years EFFICIENCY_DEGRADATION_RATE with
  | none => none
  | some current_power_w =>
    let operational_co2_g :=
      calculate_operational_carbon current_power_w duration_hours carbon_intensity PUE_DEFAULT
    match calculate_amortized_embodied_carbon specs.total_embodied_kg specs.age_years
        specs.expected_lifetime_years duration_hours with
    | none => none
    | some embodied_co2_g =>
      some (operational_co2_g, embodied_co2_g, operational_co2_g + embodied_co2_g)

/-- A possibly-infinite number of hours, modelling Python's float('inf')
return of calculate_break_even_time. -/
inductive Hours where
  | finite (h : ℚ)
  | posInf
deriving DecidableEq, Repr

/-- calculate_break_even_time (lines 270-320).  The old server's
remaining embodied debt is scaled by its debt ratio; the new server's
penalty is its FULL embodied total times NEW_HARDWARE_CARBON_MULTIPLIER
(no debt-ratio scaling), and the new server's power is evaluated at a
hard-coded age of 0.5 years. -/
def calculate_break_even_time (old_server_age new_server_age : AgeClass)
    (carbon_intensity : ℚ) : Option Hours :=
  let old_specs := SERVER_SPECS old_server_age
  let new_specs := SERVER_SPECS new_server_age
  let old_remaining_embodied := old_specs.total_embodied_kg * 1000 *
    calculate_carbon_debt_ratio old_specs.age_years old_specs.expected_lifetime_years
  let new_embodied := new_specs.total_embodied_kg * 1000 * NEW_HARDWARE_CARBON_MULTIPLIER
  let embodied_diff := new_embodied - old_remaining_embodied
  match calculate_power_consumption BASE_POWER_W old_specs.age_years
      EFFICIENCY_DEGRADATION_RATE with
  | none => none
  | some old_power_w =>
    match calculate_power_consumption BASE_POWER_W (1/2) EFFICIENCY_DEGRADATION_RATE with
    | none => none
    | some new_power_w =>
      let operational_savings_per_hour :=
        (old_power_w / 1000 - new_power_w / 1000) * carbon_intensity * PUE_DEFAULT
      if operational_savings_per_hour ≤ 0 then some Hours.posInf
      else some (Hours.finite (embodied_diff / operational_savings_per_hour))

/-- Round-half-to-even on a rational, as Python's round applies to the
scaled value. -/
def roundHalfEven (x : ℚ) : ℤ :=
  let f := Int.floor x
  let frac := x - f
  if frac < 1/2 then f
  else if 1/2 < frac then f + 1
  else if f % 2 = 0 then f else f + 1

/-- Python's round(x, ndigits) (banker's rounding) on an exact rational. -/
def pyRound (x : ℚ) (ndigits : ℕ) : ℚ :=
  let scale : ℚ := ((10 ^ ndigits : ℕ) : ℚ)
  ((roundHalfEven (x * scale) : ℤ) : ℚ) / scale

/-- Python's `x or d` on a float-or-None value: both None and 0.0 are
falsy and give the default. -/
def pyOr (x : Option ℚ) (d : ℚ) : ℚ :=
  match x with
  | none => d
  | some v => if v = 0 then d else v

/-- The per-region blended carbon intensity of the scheduler (lines
362-364): ci = 0.7 * (live or 700) + 0.3 * (historical or live). -/
def blendedCI (live hist : Region → Option ℚ) (r : Region) : ℚ :=
  let ci_live := pyOr (live r) 700
  let ci_hist := pyOr (hist r) ci_live
  (7/10) * ci_live + (3/10) * ci_hist

/-- The strategy-dependent score (lines 383-405).  Any strategy string
other than "embodied_prioritized" and "balanced" takes the final else
branch, which is the "operational_only" scoring. -/
def scoreOf (strategy : String) (operational_co2 embodied_co2 total_co2 debt_ratio
    latency cost : ℚ) : ℚ :=
  if strategy = "embodied_prioritized" then
    (4/10) * total_co2 + (3/10) * (debt_ratio * 1000) + (2/10) * (latency / 1000)
      + (1/10) * cost
  else if strategy = "balanced" then
    (35/100) * operational_co2 + (35/100) * embodied_co2 + (2/10) * (latency / 1000)
      + (1/10) * cost
  else
    (7/10) * operational_co2 + (2/10) * (latency / 1000) + (1/10) * cost

/-- A candidate record as built at lines 407-422.  The carbon, debt,
power and score fields hold ROUNDED values, exactly as stored in the
Python dict. -/
structure Candidate where
  region : Region
  server_age : AgeClass
  server_age_years : ℚ
  carbon_intensity : ℚ
  operational_co2_g : ℚ
  embodied_co2_g : ℚ
  total_co2_g : ℚ
  carbon_debt_ratio : ℚ
  power_consumption_w : ℚ
  latency_ms : ℚ
  cost_factor : ℚ
  score : ℚ
  available_servers : Int
deriving DecidableEq, Repr

/-- Python exceptions that the embedded functions can raise. -/
inductive PyError where
  | assertionError
  | keyError (key : String)
deriving DecidableEq, Repr

/-- Evaluate one (region, age-class) pair inside the scheduler loop
(lines 367-424): skip (ok none) when no server is available, raise on a
failed internal assertion, otherwise produce the raw score (used for
best-tracking at line 426) paired with the candidate record (whose
stored score field is rounded). -/
def evalCandidate (strategy : String) (duration_s : ℚ) (r : Region) (ci : ℚ)
    (a : AgeClass) : Except PyError (Option (ℚ × Candidate)) :=
  let dc := REGION_DATACENTERS r
  if dc.available a ≤ 0 then Except.ok none
  else
    match calculate_total_carbon a duration_s ci with
    | none => Except.error PyError.assertionError
    | some (operational_co2, embodied_co2, total_co2) =>
      let specs := SERVER_SPECS a
      let debt_ratio :=
        calculate_carbon_debt_ratio specs.age_years specs.expected_lifetime_years
      match calculate_power_consumption BASE_POWER_W specs.age_years
          EFFICIENCY_DEGRADATION_RATE with
      | none => Except.error PyError.assertionError
      | some power_w =>
        let score := scoreOf strategy operational_co2 embodied_co2 total_co2 debt_ratio
          dc.latency_ms dc.cost_factor
        Except.ok (some (score,
          { region := r
            server_age := a
            server_age_years := specs.age_years
            carbon_intensity := pyRound ci 2
            operational_co2_g := pyRound operational_co2 6
            embodied_co2_g := pyRound embodied_co2 6
            total_co2_g := pyRound total_co2 6
            carbon_debt_ratio := pyRound debt_ratio 3
            power_consumption_w := pyRound power_w 2
            latency_ms := dc.latency_ms
            cost_factor := dc.cost_factor
            score := pyRound score 6
            available_servers := dc.available a }))

/-- Error-propagating map over a list: the Python for-loop stops at the
first raised exception. -/
def mapE (f : α → Except PyError β) : List α → Except PyError (List β)
  | [] => Except.ok []
  | x :: xs =>
    match f x with
    | Except.error e => Except.error e
    | Except.ok y =>
      match mapE f xs with
      | Except.error e => Except.error e
      | Except.ok ys => Except.ok (y :: ys)

/-- Iteration order of REGION_DATACENTERS (dict insertion order). -/
def regionOrder : List Region :=
  [Region.Northern, Region.Western, Region.Southern, Region.Eastern]

/-- Iteration order of the per-region server dict. -/
def ageOrder : List AgeClass := [AgeClass.new, AgeClass.medium, AgeClass.old]

/-- Evaluate every age class of one region that already passed the SLA
filter: compute the blended intensity once, then loop over the classes,
dropping the skipped ones. -/
def evalRegion (strategy : String) (duration_s : ℚ) (live hist : Region → Option ℚ)
    (r : Region) : Except PyError (List (ℚ × Candidate)) :=
  let ci := blendedCI live hist r
  match mapE (evalCandidate strategy duration_s r ci) ageOrder with
  | Except.error e => Except.error e
  | Except.ok opts => Except.ok (opts.filterMap id)

/-- The full candidate set built by choose_region_embodied_aware: regions
failing the hard SLA filter (latency > sla_ms) are skipped before any
scoring, the rest are evaluated in order. -/
def scheduleCandidates (duration_s sla_ms : ℚ) (strategy : String)
    (live hist : Region → Option ℚ) : Except PyError (List (ℚ × Candidate)) :=
  let rs := regionOrder.filter (fun r => decide ((REGION_DATACENTERS r).latency_ms ≤ sla_ms))
  match mapE (evalRegion strategy duration_s live hist) rs with
  | Except.error e => Except.error e
  | Except.ok lists => Except.ok lists.flatten

/-- The best-candidate tracking of lines 348-428: starting from
best_score = +infinity, replace on strictly smaller RAW score, so the
first minimal-raw-score candidate wins. -/
def pickBest (l : List (ℚ × Candidate)) : Option (ℚ × Candidate) :=
  l.foldl (fun acc sc =>
    match acc with
    | none => some sc
    | some best => if sc.1 < best.1 then some sc else some best) none

/-- The dictionary returned by choose_region_embodied_aware: either a
chosen candidate (no error key) or the fallback of lines 430-436 with
region Northern, server_age medium and the explicit error message. -/
structure ScheduleResult where
  region : Region
  server_age : AgeClass
  error : Option String
  chosen : Option Candidate
  strategy : String
  duration_s : ℚ
  sla_ms : ℚ
  top_3_alternatives : List Candidate
deriving DecidableEq, Repr

/-- choose_region_embodied_aware (lines 327-468).  The top-3 list sorts
the candidate records by their stored (rounded) score with a stable
sort, as Python's `sorted` does. -/
def choose_region_embodied_aware (duration_s sla_ms : ℚ) (strategy : String)
    (live hist : Region → Option ℚ) : Except PyError ScheduleResult :=
  match scheduleCandidates duration_s sla_ms strategy live hist with
  | Except.error e => Except.error e
  | Except.ok scored =>
    let candidates := scored.map Prod.snd
    let sorted := candidates.mergeSort (fun a b => decide (a.score ≤ b.score))
    match pickBest scored with
    | some best =>
      Except.ok
        { region := best.2.region
          server_age := best.2.server_age
          error := none
          chosen := some best.2
          strategy := strategy
          duration_s := duration_s
          sla_ms := sla_ms
          top_3_alternatives := sorted.take 3 }
    | none =>
      Except.ok
        { region := Region.Northern
          server_age := AgeClass.medium
          error := some "No servers met SLA constraints"
          chosen := none
          strategy := strategy
          duration_s := duration_s
          sla_ms := sla_ms
          top_3_alternatives := sorted.take 3 }

/-- The result dict of analyze_hardware_replacement (lines 516-552),
never actually constructed by the code (see
analyze_hardware_replacement below). -/
structure ReplacementAnalysis where
  region : Region
  carbon_intensity : ℚ
  old_age_years : ℚ
  remaining_life_years : ℚ
  old_power_w : ℚ
  old_carbon_debt_ratio : ℚ
  new_age_years : ℚ
  new_power_w : ℚ
  break_even_hours : ℚ
  should_replace : Bool
  reasoning : String
  carbon_impact_kg : ℚ
  difference_g : ℚ
deriving Repr

/-- analyze_hardware_replacement (lines 471-552).  In the Python source
the result dict reads `new_specs["base_power_w"]` (line 531), a key that
SERVER_SPECS entries do not have, so constructing the result raises
KeyError.  When the break-even time is infinite, the IEEE infinity
propagates through the carbon totals and their assertions (inf <= inf
holds), so that path also reaches the failing key access. -/
def analyze_hardware_replacement (region : Region) (old_age new_age : AgeClass)
    (live hist : Region → Option ℚ) : Except PyError ReplacementAnalysis :=
  let ci := blendedCI live hist region
  match calculate_break_even_time old_age new_age ci with
  | none => Except.error PyError.assertionError
  | some be =>
    let old_specs := SERVER_SPECS old_age
    let new_specs := SERVER_SPECS new_age
    let remaining_life_years := old_specs.expected_lifetime_years - old_specs.age_years
    let remaining_life_hours := remaining_life_years * (1461/4) * 24
    match be with
    | Hours.posInf =>
      -- should_replace = (inf < remaining) = False; the lifetime carbon
      -- totals evaluate to infinities without tripping an assertion, and
      -- the dict construction then raises KeyError("base_power_w").
      Except.error (PyError.keyError "base_power_w")
    | Hours.finite break_even_hours =>
      let should_replace := break_even_hours < remaining_life_hours
      let total_hours := if should_replace then remaining_life_hours else break_even_hours
      match calculate_total_carbon old_age (total_hours * 3600) ci with
      | none => Except.error PyError.assertionError
      | some oldT =>
        match calculate_total_carbon new_age (total_hours * 3600) ci with
        | none => Except.error PyError.assertionError
        | some newT =>
          match calculate_power_consumption BASE_POWER_W old_specs.age_years
              EFFICIENCY_DEGRADATION_RATE with
          | none => Except.error PyError.assertionError
          | some old_power_w =>
            match specField new_age "base_power_w" with
            | none => Except.error (PyError.keyError "base_power_w")
            | some new_power_w =>
              -- Unreachable: SERVER_SPECS has no "base_power_w" key.
              let carbon_difference := oldT.2.2 - newT.2.2
              Except.ok
                { region := region
                  carbon_intensity := pyRound ci 2
                  old_age_years := old_specs.age_years
                  remaining_life_years := pyRound remaining_life_years 2
                  old_power_w := pyRound old_power_w 2
                  old_carbon_debt_ratio := pyRound (calculate_carbon_debt_ratio
                    old_specs.age_years old_specs.expected_lifetime_years) 3
                  new_age_years := new_specs.age_years
                  new_power_w := new_power_w
                  break_even_hours := pyRound break_even_hours 2
                  should_replace := decide should_replace
                  reasoning := if should_replace then "Replace now"
                    else "Keep old server - break-even exceeds remaining lifetime"
                  carbon_impact_kg := pyRound (carbon_difference / 1000) 3
                  difference_g := pyRound carbon_difference 2 }

/-- The embodied grams attributed by the amortizer to `dh` hours on a
configured age class, written exactly as the code computes them:
(total*1000 / lifetime-hours) * duration * debt_ratio. -/
def embodiedGrams (a : AgeClass) (dh : ℚ) : ℚ :=
  (SERVER_SPECS a).total_embodied_kg * 1000 /
    ((SERVER_SPECS a).expected_lifetime_years * (1461/4) * 24) * dh *
    calculate_carbon_debt_ratio (SERVER_SPECS a).age_years
      (SERVER_SPECS a).expected_lifetime_years

/-- The operational grams computed by calculate_total_carbon for an age
class, a duration in seconds and a carbon intensity. -/
def operationalOf (a : AgeClass) (duration_seconds carbon_intensity : ℚ) : ℚ :=
  calculate_operational_carbon
    (powerFormula BASE_POWER_W (SERVER_SPECS a).age_years EFFICIENCY_DEGRADATION_RATE)
    (duration_seconds / 3600) carbon_intensity PUE_DEFAULT

/-- The embodied grams computed by calculate_total_carbon for an age
class and a duration in seconds. -/
def embodiedOf (a : AgeClass) (duration_seconds : ℚ) : ℚ :=
  embodiedGrams a (duration_seconds / 3600)

/-- The break-even formula as the claim states it (following the spec's
words in §4.6): the new server's remaining embodied debt — its embodied
total scaled by ITS OWN debt ratio — times the new-hardware multiplier,
minus the old server's remaining debt, divided by the hourly operational
savings computed from EACH class's own power draw.  This definition is
written from the specification, to be compared against
calculate_break_even_time, which is written from the code. -/
def spec_break_even_time (old_server_age new_server_age : AgeClass)
    (carbon_intensity : ℚ) : Hours :=
  let old_specs := SERVER_SPECS old_server_age
  let new_specs := SERVER_SPECS new_server_age
  let old_remaining := old_specs.total_embodied_kg * 1000 *
    calculate_carbon_debt_ratio old_specs.age_years old_specs.expected_lifetime_years
  let new_remaining := new_specs.total_embodied_kg * 1000 *
    calculate_carbon_debt_ratio new_specs.age_years new_specs.expected_lifetime_years
  let savings :=
    (powerFormula BASE_POWER_W old_specs.age_years EFFICIENCY_DEGRADATION_RATE / 1000
      - powerFormula BASE_POWER_W new_specs.age_years EFFICIENCY_DEGRADATION_RATE / 1000)
      * carbon_intensity * PUE_DEFAULT
  if savings ≤ 0 then Hours.posInf
  else Hours.finite
    ((new_remaining * NEW_HARDWARE_CARBON_MULTIPLIER - old_remaining) / savings)

/-- The (raw score, candidate record) pair that the scheduler loop
produces for one available (region, age-class) pair when all internal
assertions pass. -/
def scoredCandidate (strategy : String) (duration_s ci : ℚ) (r : Region) (a : AgeClass) :
    ℚ × Candidate :=
  let o := operationalOf a duration_s ci
  let e := embodiedOf a duration_s
  let t := o + e
  let debt := calculate_carbon_debt_ratio (SERVER_SPECS a).age_years
    (SERVER_SPECS a).expected_lifetime_years
  let score := scoreOf strategy o e t debt (REGION_DATACENTERS r).latency_ms
    (REGION_DATACENTERS r).cost_factor
  (score,
    { region := r
      server_age := a
      server_age_years := (SERVER_SPECS a).age_years
      carbon_intensity := pyRound ci 2
      operational_co2_g := pyRound o 6
      embodied_co2_g := pyRound e 6
      total_co2_g := pyRound t 6
      carbon_debt_ratio := pyRound debt 3
      power_consumption_w := pyRound (powerFormula BASE_POWER_W (SERVER_SPECS a).age_years
        EFFICIENCY_DEGRADATION_RATE) 2
      latency_ms := (REGION_DATACENTERS r).latency_ms
      cost_factor := (REGION_DATACENTERS r).cost_factor
      score := pyRound score 6
      available_servers := (REGION_DATACENTERS r).available a })

/- ===================================================================
   Helper lemmas
   =================================================================== -/

/-- The power assertion can never fire for a non-negative base power:
the function returns the closed-form value. -/
lemma power_consumption_eq (base age alpha : ℚ) (hb : 0 ≤ base) :
    calculate_power_consumption base age alpha = some (powerFormula base age alpha) := by
  have h1 : min (alpha * age) (3/5) ≤ 3/5 := min_le_right _ _
  have h2 : base * (1 + min (alpha * age) (3/5)) ≤ base * (8/5) :=
    mul_le_mul_of_nonneg_left (by linarith) hb
  unfold calculate_power_consumption powerFormula
  simp only [if_pos h2]

/-- The carbon debt ratio is never negative for a positive lifetime. -/
lemma debt_ratio_nonneg (age L : ℚ) (hL : 0 < L) :
    0 ≤ calculate_carbon_debt_ratio age L := by
  unfold calculate_carbon_debt_ratio
  by_cases h : L ≤ age
  · simp [h]
  · rw [if_neg h]
    have : 0 ≤ L - age := by linarith [not_le.mp h]
    positivity

/-- The carbon debt ratio is at most one for non-negative ages. -/
lemma debt_ratio_le_one (age L : ℚ) (hL : 0 < L) (ha : 0 ≤ age) :
    calculate_carbon_debt_ratio age L ≤ 1 := by
  unfold calculate_carbon_debt_ratio
  by_cases h : L ≤ age
  · simp [h]
  · rw [if_neg h, div_le_one hL]
    linarith

/-- The amortizer returns its closed-form value exactly when that value
satisfies the internal assertion. -/
lemma amortized_eq (kg age L dh : ℚ)
    (hval0 : 0 ≤ kg * 1000 / (L * (1461/4) * 24) * dh * calculate_carbon_debt_ratio age L)
    (hval : kg * 1000 / (L * (1461/4) * 24) * dh * calculate_carbon_debt_ratio age L
      ≤ max 1 (dh * 100)) :
    calculate_amortized_embodied_carbon kg age L dh
      = some (kg * 1000 / (L * (1461/4) * 24) * dh * calculate_carbon_debt_ratio age L) := by
  unfold calculate_amortized_embodied_carbon
  simp only [if_pos (And.intro hval0 hval)]

/-- For the configured classes (660 kg, 5-year lifetime) the amortizer
assertion always holds on non-negative durations, and the returned value
is the closed-form `embodiedGrams`. -/
lemma amortized_config (a : AgeClass) (dh : ℚ) (h : 0 ≤ dh) :
    calculate_amortized_embodied_carbon (SERVER_SPECS a).total_embodied_kg
        (SERVER_SPECS a).age_years (SERVER_SPECS a).expected_lifetime_years dh
      = some (embodiedGrams a dh) ∧
    0 ≤ embodiedGrams a dh ∧ embodiedGrams a dh ≤ max 1 (dh * 100) := by
  have hb : embodiedGrams a dh ≤ dh * 100 := by
    cases a <;>
      · simp only [embodiedGrams, SERVER_SPECS]
        norm_num [calculate_carbon_debt_ratio]
        linarith
  have h0 : 0 ≤ embodiedGrams a dh := by
    cases a <;>
      · simp only [embodiedGrams, SERVER_SPECS]
        norm_num [calculate_carbon_debt_ratio]
        linarith
  refine ⟨?_, h0, le_trans hb (le_max_right _ _)⟩
  have := amortized_eq (SERVER_SPECS a).total_embodied_kg (SERVER_SPECS a).age_years
    (SERVER_SPECS a).expected_lifetime_years dh (by simpa [embodiedGrams] using h0)
    (by simpa [embodiedGrams] using le_trans hb (le_max_right 1 (dh * 100)))
  simpa [embodiedGrams] using this

/-- Unfolded form of calculate_total_carbon for a non-negative duration:
the assertions pass and the triple is (operational, embodied, sum). -/
lemma total_carbon_config (a : AgeClass) (dur ci : ℚ) (h : 0 ≤ dur) :
    calculate_total_carbon a dur ci
      = some (operationalOf a dur ci, embodiedOf a dur,
          operationalOf a dur ci + embodiedOf a dur) := by
  have hdh : 0 ≤ dur / 3600 := by positivity
  have hp := power_consumption_eq BASE_POWER_W (SERVER_SPECS a).age_years
    EFFICIENCY_DEGRADATION_RATE (by norm_num [BASE_POWER_W])
  have ha := (amortized_config a (dur / 3600) hdh).1
  unfold calculate_total_carbon
  simp only [hp, ha]
  rfl

/-- Whatever triple calculate_total_carbon returns, its third component
is the sum of the first two. -/
lemma total_carbon_sum (a : AgeClass) (dur ci o e t : ℚ)
    (h : calculate_total_carbon a dur ci = some (o, e, t)) : t = o + e := by
  have hp := power_consumption_eq BASE_POWER_W (SERVER_SPECS a).age_years
    EFFICIENCY_DEGRADATION_RATE (by norm_num [BASE_POWER_W])
  unfold calculate_total_carbon at h
  simp only [hp] at h
  cases he : calculate_amortized_embodied_carbon (SERVER_SPECS a).total_embodied_kg
      (SERVER_SPECS a).age_years (SERVER_SPECS a).expected_lifetime_years (dur / 3600) with
  | none =>
    simp only [he] at h
    exact Option.noConfusion h
  | some eg =>
    simp only [he, Option.some.injEq, Prod.mk.injEq] at h
    obtain ⟨h1, h2, h3⟩ := h
    rw [← h3, ← h1, ← h2]

/- ===================================================================
   Claim theorems
   =================================================================== -/

/-- C2 (amended): whenever the closed-form amortized value satisfies the
internal assertion bound [0, max(1, 100*duration_hours)], the amortizer
returns exactly (total*1000 / (lifetime*365.25*24)) * duration *
debt_ratio; in particular it returns 0 when age equals the lifetime and
0 when the duration is 0.  (The unamended claim fails because the
assertion aborts the function when the value exceeds the bound.) -/
theorem amortizer_formula_within_assertion (kg age L dh : ℚ)
    (hkg : 0 ≤ kg) (hL : 0 < L) (hdh : 0 ≤ dh)
    (hbound : kg * 1000 / (L * (1461/4) * 24) * dh * calculate_carbon_debt_ratio age L
      ≤ max 1 (dh * 100)) :
    calculate_amortized_embodied_carbon kg age L dh
      = some (kg * 1000 / (L * (1461/4) * 24) * dh * calculate_carbon_debt_ratio age L) ∧
    (age = L → calculate_amortized_embodied_carbon kg age L dh = some 0) ∧
    (dh = 0 → calculate_amortized_embodied_carbon kg age L dh = some 0) := by
  have hr := debt_ratio_nonneg age L hL
  have hH : (0:ℚ) < L * (1461/4) * 24 := by positivity
  have hval0 : 0 ≤ kg * 1000 / (L * (1461/4) * 24) * dh * calculate_carbon_debt_ratio age L :=
    mul_nonneg (mul_nonneg (div_nonneg (by positivity) (le_of_lt hH)) hdh) hr
  have h1 := amortized_eq kg age L dh hval0 hbound
  refine ⟨h1, ?_, ?_⟩
  · intro hA
    have h0 : calculate_carbon_debt_ratio age L = 0 := by
      simp [calculate_carbon_debt_ratio, hA]
    rw [h1, h0, mul_zero]
  · intro h0
    rw [h1, h0, mul_zero, zero_mul]

/-- C2 witness: concrete instance (660 kg, age 0.5, lifetime 5,
duration 1 h) of the amended amortizer formula. -/
theorem amortizer_formula_witness :
    calculate_amortized_embodied_carbon 660 (1/2) 5 1
      = some (660 * 1000 / (5 * (1461/4) * 24) * 1 * calculate_carbon_debt_ratio (1/2) 5) :=
  (amortizer_formula_within_assertion 660 (1/2) 5 1 (by norm_num) (by norm_num)
    (by norm_num) (by norm_num [calculate_carbon_debt_ratio, max_def])).1

/-- C2 counterexample: for total_embodied_kg = 1000000 (well-formed
input: kg ≥ 0, lifetime 5 > 0, duration 1 ≥ 0) the amortizer does not
return the claimed formula value — it aborts on its internal assertion,
because the value ≈ 22817 g exceeds max(1, 100*1). -/
theorem amortizer_abort_cex :
    calculate_amortized_embodied_carbon 1000000 0 5 1 = none := by
  norm_num [calculate_amortized_embodied_carbon, calculate_carbon_debt_ratio, max_def]

/-- C3 (confirmed): for non-negative base power, age and degradation
rate, the power model returns base*(1 + min(rate*age, 0.60)), which is
at least the base power and at most 1.60 times the base power. -/
theorem power_model_formula_and_bounds (base age rate : ℚ)
    (hb : 0 ≤ base) (ha : 0 ≤ age) (hr : 0 ≤ rate) :
    calculate_power_consumption base age rate
      = some (base * (1 + min (rate * age) (3/5))) ∧
    base ≤ base * (1 + min (rate * age) (3/5)) ∧
    base * (1 + min (rate * age) (3/5)) ≤ base * (8/5) := by
  have hmin0 : 0 ≤ min (rate * age) (3/5) := le_min (mul_nonneg hr ha) (by norm_num)
  have hmin1 : min (rate * age) (3/5) ≤ 3/5 := min_le_right _ _
  refine ⟨power_consumption_eq base age rate hb, ?_, ?_⟩
  · nlinarith [mul_nonneg hb hmin0]
  · nlinarith [mul_nonneg hb (by linarith : (0:ℚ) ≤ 3/5 - min (rate * age) (3/5))]

/-- C3 witness: the power bounds at base 65 W, age 4 years, rate 12%. -/
theorem power_model_formula_witness :
    calculate_power_consumption 65 4 (12/100)
      = some (65 * (1 + min ((12/100) * 4) (3/5))) ∧
    (65:ℚ) ≤ 65 * (1 + min ((12/100) * 4) (3/5)) ∧
    (65:ℚ) * (1 + min ((12/100) * 4) (3/5)) ≤ 65 * (8/5) :=
  power_model_formula_and_bounds 65 4 (12/100) (by norm_num) (by norm_num) (by norm_num)

/-- C4 counterexample: at the negative age -1 (with lifetime 5 > 0) the
debt ratio equals 6/5 — the claimed "fraction in [0,1]" bound fails for
negative ages, although the max-formula itself still holds there. -/
theorem debt_ratio_above_one_cex :
    calculate_carbon_debt_ratio (-1) 5 = 6/5 ∧ 1 < calculate_carbon_debt_ratio (-1) 5 := by
  norm_num [calculate_carbon_debt_ratio]

/-- C4 (amended): for every positive lifetime the debt ratio equals
max(0, (L - age)/L) for every age; it lies in [0,1] for every
NON-NEGATIVE age; it is monotonically non-increasing in age; it is 1 at
age 0; and it is exactly 0 for every age ≥ L. -/
theorem debt_ratio_formula_props (L : ℚ) (hL : 0 < L) :
    (∀ a, calculate_carbon_debt_ratio a L = max 0 ((L - a) / L)) ∧
    (∀ a, 0 ≤ a → 0 ≤ calculate_carbon_debt_ratio a L ∧ calculate_carbon_debt_ratio a L ≤ 1) ∧
    (∀ a b, a ≤ b → calculate_carbon_debt_ratio b L ≤ calculate_carbon_debt_ratio a L) ∧
    calculate_carbon_debt_ratio 0 L = 1 ∧
    (∀ a, L ≤ a → calculate_carbon_debt_ratio a L = 0) := by
  refine ⟨?_, ?_, ?_, ?_, ?_⟩
  · intro a
    unfold calculate_carbon_debt_ratio
    by_cases h : L ≤ a
    · rw [if_pos h, eq_comm, max_eq_left]
      exact div_nonpos_of_nonpos_of_nonneg (by linarith) (le_of_lt hL)
    · rw [if_neg h, eq_comm, max_eq_right]
      exact div_nonneg (by linarith [not_le.mp h]) (le_of_lt hL)
  · intro a ha
    exact ⟨debt_ratio_nonneg a L hL, debt_ratio_le_one a L hL ha⟩
  · intro a b hab
    unfold calculate_carbon_debt_ratio
    by_cases hb2 : L ≤ b
    · rw [if_pos hb2]
      by_cases ha2 : L ≤ a
      · rw [if_pos ha2]
      · rw [if_neg ha2]
        exact div_nonneg (by linarith [not_le.mp ha2]) (le_of_lt hL)
    · rw [if_neg hb2, if_neg (by linarith [not_le.mp hb2] : ¬ L ≤ a)]
      gcongr
  · rw [calculate_carbon_debt_ratio, if_neg (not_le.mpr hL), sub_zero,
      div_self (ne_of_gt hL)]
  · intro a h
    simp [calculate_carbon_debt_ratio, h]

/-- C4 witness: the max-formula instantiated at age 4, lifetime 5. -/
theorem debt_ratio_formula_witness :
    calculate_carbon_debt_ratio 4 5 = max 0 ((5 - 4) / 5) :=
  (debt_ratio_formula_props 5 (by norm_num)).1 4

/-- C9 counterexample: at the negative age -1 the power model does NOT
fail with an invalid-argument condition — it silently returns
65*(1 - 0.12) = 57.2 W. -/
theorem power_negative_age_no_failure_cex :
    calculate_power_consumption 65 (-1) (12/100) = some (286/5) := by
  norm_num [calculate_power_consumption, min_def]

/-- C9 (amended): the power model performs no input validation at all:
for ANY age and rate (negative included) and non-negative base it
silently returns base*(1 + min(rate*age, 0.60)); no invalid-argument
condition is ever raised. -/
theorem power_model_accepts_any_age_and_rate (base age rate : ℚ) (hb : 0 ≤ base) :
    calculate_power_consumption base age rate
      = some (base * (1 + min (rate * age) (3/5))) :=
  power_consumption_eq base age rate hb

/-- C9 witness: the silent acceptance at the negative age -2. -/
theorem power_model_accepts_witness :
    calculate_power_consumption 65 (-2) (12/100)
      = some (65 * (1 + min ((12/100) * (-2)) (3/5))) :=
  power_model_accepts_any_age_and_rate 65 (-2) (12/100) (by norm_num)

/-- C10 (confirmed): for each configured age class (660 kg embodied,
5-year lifetime) and every non-negative duration, the amortizer's
internal assertion holds — the computed grams lie in
[0, max(1, 100*duration_hours)] — so the function never aborts on
configured inputs. -/
theorem amortizer_assertion_safe_for_config (a : AgeClass) (dh : ℚ) (h : 0 ≤ dh) :
    ∃ g, calculate_amortized_embodied_carbon (SERVER_SPECS a).total_embodied_kg
        (SERVER_SPECS a).age_years (SERVER_SPECS a).expected_lifetime_years dh
      = some g ∧ 0 ≤ g ∧ g ≤ max 1 (dh * 100) :=
  ⟨embodiedGrams a dh, (amortized_config a dh h).1, (amortized_config a dh h).2.1,
    (amortized_config a dh h).2.2⟩

/-- C10 witness: the assertion-safety at the old class, 2-hour duration. -/
theorem amortizer_assertion_safe_witness :
    ∃ g, calculate_amortized_embodied_carbon (SERVER_SPECS AgeClass.old).total_embodied_kg
        (SERVER_SPECS AgeClass.old).age_years
        (SERVER_SPECS AgeClass.old).expected_lifetime_years 2
      = some g ∧ 0 ≤ g ∧ g ≤ max 1 (2 * 100) :=
  amortizer_assertion_safe_for_config AgeClass.old 2 (by norm_num)

/-- Closed form of calculate_break_even_time: the power assertions never
fire (base 65 ≥ 0), leaving the if on the sign of the hourly operational
savings, computed with the old class's own age but a hard-coded 0.5-year
age for the new server. -/
lemma break_even_closed (old_age new_age : AgeClass) (ci : ℚ) :
    calculate_break_even_time old_age new_age ci =
      (if ((powerFormula BASE_POWER_W (SERVER_SPECS old_age).age_years
            EFFICIENCY_DEGRADATION_RATE / 1000
          - powerFormula BASE_POWER_W (1/2) EFFICIENCY_DEGRADATION_RATE / 1000) * ci
            * PUE_DEFAULT ≤ 0)
        then some Hours.posInf
        else some (Hours.finite
          (((SERVER_SPECS new_age).total_embodied_kg * 1000 * NEW_HARDWARE_CARBON_MULTIPLIER
            - (SERVER_SPECS old_age).total_embodied_kg * 1000 *
              calculate_carbon_debt_ratio (SERVER_SPECS old_age).age_years
                (SERVER_SPECS old_age).expected_lifetime_years)
            / ((powerFormula BASE_POWER_W (SERVER_SPECS old_age).age_years
                EFFICIENCY_DEGRADATION_RATE / 1000
              - powerFormula BASE_POWER_W (1/2) EFFICIENCY_DEGRADATION_RATE / 1000) * ci
                * PUE_DEFAULT)))) := by
  have hp1 := power_consumption_eq BASE_POWER_W (SERVER_SPECS old_age).age_years
    EFFICIENCY_DEGRADATION_RATE (by norm_num [BASE_POWER_W])
  have hp2 := power_consumption_eq BASE_POWER_W (1/2)
    EFFICIENCY_DEGRADATION_RATE (by norm_num [BASE_POWER_W])
  unfold calculate_break_even_time
  simp only [hp1, hp2]

/-- C7 (amended): the break-even calculator returns +infinity exactly
when the hourly operational savings (old power at the old class's age
minus new power at a FIXED 0.5-year age, per kW, times intensity and
PUE) is ≤ 0; otherwise it returns (new embodied total * 1000 *
multiplier - old embodied total * 1000 * old debt ratio) divided by the
savings.  (The unamended claim fails: the code does not scale the new
server's penalty by the new class's debt ratio, nor use the new class's
own power draw.) -/
theorem break_even_time_formula (old_age new_age : AgeClass) (ci : ℚ) :
    ((powerFormula BASE_POWER_W (SERVER_SPECS old_age).age_years
          EFFICIENCY_DEGRADATION_RATE / 1000
        - powerFormula BASE_POWER_W (1/2) EFFICIENCY_DEGRADATION_RATE / 1000) * ci
          * PUE_DEFAULT ≤ 0 →
      calculate_break_even_time old_age new_age ci = some Hours.posInf) ∧
    (0 < (powerFormula BASE_POWER_W (SERVER_SPECS old_age).age_years
          EFFICIENCY_DEGRADATION_RATE / 1000
        - powerFormula BASE_POWER_W (1/2) EFFICIENCY_DEGRADATION_RATE / 1000) * ci
          * PUE_DEFAULT →
      calculate_break_even_time old_age new_age ci = some (Hours.finite
        (((SERVER_SPECS new_age).total_embodied_kg * 1000 * NEW_HARDWARE_CARBON_MULTIPLIER
          - (SERVER_SPECS old_age).total_embodied_kg * 1000 *
            calculate_carbon_debt_ratio (SERVER_SPECS old_age).age_years
              (SERVER_SPECS old_age).expected_lifetime_years)
          / ((powerFormula BASE_POWER_W (SERVER_SPECS old_age).age_years
              EFFICIENCY_DEGRADATION_RATE / 1000
            - powerFormula BASE_POWER_W (1/2) EFFICIENCY_DEGRADATION_RATE / 1000) * ci
              * PUE_DEFAULT)))) := by
  rw [break_even_closed]
  constructor
  · intro h
    rw [if_pos h]
  · intro h
    rw [if_neg (not_le.mpr h)]

/-- C7 witness: the finite branch at (old, new, ci = 700). -/
theorem break_even_time_formula_witness :
    calculate_break_even_time AgeClass.old AgeClass.new 700 = some (Hours.finite
      (((SERVER_SPECS AgeClass.new).total_embodied_kg * 1000 * NEW_HARDWARE_CARBON_MULTIPLIER
        - (SERVER_SPECS AgeClass.old).total_embodied_kg * 1000 *
          calculate_carbon_debt_ratio (SERVER_SPECS AgeClass.old).age_years
            (SERVER_SPECS AgeClass.old).expected_lifetime_years)
        / ((powerFormula BASE_POWER_W (SERVER_SPECS AgeClass.old).age_years
            EFFICIENCY_DEGRADATION_RATE / 1000
          - powerFormula BASE_POWER_W (1/2) EFFICIENCY_DEGRADATION_RATE / 1000) * 700
            * PUE_DEFAULT))) :=
  (break_even_time_formula AgeClass.old AgeClass.new 700).2
    (by norm_num [powerFormula, BASE_POWER_W, EFFICIENCY_DEGRADATION_RATE, PUE_DEFAULT,
      SERVER_SPECS, min_def])

/-- C7 counterexample: replacing the old (4.0y) class by the medium
(2.5y) class at intensity 700, the code returns 33000000/637 ≈ 51805 h,
while the claimed formula — new remaining debt (scaled by the new
class's debt ratio) times the multiplier, and savings from the medium
class's own power draw — gives 44000000/819 ≈ 53724 h. -/
theorem break_even_spec_mismatch_cex :
    calculate_break_even_time AgeClass.old AgeClass.medium 700
      = some (Hours.finite (33000000/637)) ∧
    spec_break_even_time AgeClass.old AgeClass.medium 700 = Hours.finite (44000000/819) ∧
    (33000000/637 : ℚ) ≠ 44000000/819 := by
  refine ⟨?_, ?_, by norm_num⟩
  · rw [break_even_closed]
    rw [if_neg (by norm_num [powerFormula, BASE_POWER_W, EFFICIENCY_DEGRADATION_RATE,
      PUE_DEFAULT, SERVER_SPECS, min_def])]
    norm_num [powerFormula, BASE_POWER_W, EFFICIENCY_DEGRADATION_RATE, PUE_DEFAULT,
      SERVER_SPECS, NEW_HARDWARE_CARBON_MULTIPLIER, calculate_carbon_debt_ratio, min_def]
  · unfold spec_break_even_time
    rw [if_neg (by norm_num [powerFormula, BASE_POWER_W, EFFICIENCY_DEGRADATION_RATE,
      PUE_DEFAULT, SERVER_SPECS, min_def])]
    norm_num [powerFormula, BASE_POWER_W, EFFICIENCY_DEGRADATION_RATE, PUE_DEFAULT,
      SERVER_SPECS, NEW_HARDWARE_CARBON_MULTIPLIER, calculate_carbon_debt_ratio, min_def]

/-- Propagating map inversion: an element of a successful mapE result
comes from a successful application of f to some list element. -/
lemma mapE_ok_mem {α β : Type} {f : α → Except PyError β} {xs : List α} {ys : List β}
    (h : mapE f xs = Except.ok ys) {y : β} (hy : y ∈ ys) :
    ∃ x ∈ xs, f x = Except.ok y := by
  induction xs generalizing ys with
  | nil =>
    simp only [mapE, Except.ok.injEq] at h
    subst h
    exact absurd hy (by simp)
  | cons x xs ih =>
    simp only [mapE] at h
    cases hfx : f x with
    | error e => rw [hfx] at h; exact Except.noConfusion h
    | ok y0 =>
      rw [hfx] at h
      cases hrest : mapE f xs with
      | error e => rw [hrest] at h; exact Except.noConfusion h
      | ok ys0 =>
        rw [hrest] at h
        simp only [Except.ok.injEq] at h
        subst h
        rcases List.mem_cons.mp hy with rfl | hy2
        · exact ⟨x, List.mem_cons_self x xs, hfx⟩
        · obtain ⟨x2, hx2, hfx2⟩ := ih hrest hy2
          exact ⟨x2, List.mem_cons_of_mem x hx2, hfx2⟩

/-- The best-tracking fold yields an element of the list, or leaves the
accumulator unchanged. -/
lemma pickBest_aux (l : List (ℚ × Candidate)) :
    ∀ (acc x : Option (ℚ × Candidate)),
      l.foldl (fun acc sc =>
        match acc with
        | none => some sc
        | some best => if sc.1 < best.1 then some sc else some best) acc = x →
      (∃ b, x = some b ∧ b ∈ l) ∨ x = acc := by
  induction l with
  | nil => intro acc x h; exact Or.inr h.symm
  | cons y l ih =>
    intro acc x h
    rw [List.foldl_cons] at h
    cases acc with
    | none =>
      rcases ih (some y) x (by simpa using h) with ⟨b, hb, hbl⟩ | heq
      · exact Or.inl ⟨b, hb, List.mem_cons_of_mem y hbl⟩
      · subst heq
        exact Or.inl ⟨y, rfl, List.mem_cons_self y l⟩
    | some best =>
      by_cases hlt : y.1 < best.1
      · rcases ih (some y) x (by simpa [hlt] using h) with ⟨b, hb, hbl⟩ | heq
        · exact Or.inl ⟨b, hb, List.mem_cons_of_mem y hbl⟩
        · subst heq
          exact Or.inl ⟨y, rfl, List.mem_cons_self y l⟩
      · rcases ih (some best) x (by simpa [hlt] using h) with ⟨b, hb, hbl⟩ | heq
        · exact Or.inl ⟨b, hb, List.mem_cons_of_mem y hbl⟩
        · exact Or.inr heq

/-- The selected best candidate is one of the scored candidates. -/
lemma pickBest_mem {l : List (ℚ × Candidate)} {b : ℚ × Candidate}
    (h : pickBest l = some b) : b ∈ l := by
  rcases pickBest_aux l none (some b) h with ⟨b2, hb2, hbl⟩ | heq
  · obtain rfl : b = b2 := by injection hb2
    exact hbl
  · exact Option.noConfusion heq

/-- On a non-empty candidate list the best tracking always selects
something. -/
lemma pickBest_cons_ne_none (y : ℚ × Candidate) (l : List (ℚ × Candidate)) :
    pickBest (y :: l) ≠ none := by
  intro h
  rcases pickBest_aux l (some y) none h with ⟨b, hb, _⟩ | heq
  · exact Option.noConfusion hb
  · exact Option.noConfusion heq

/-- A successfully scored candidate carries its region's latency and its
three carbon fields are the 6-decimal roundings of an exact operational
value, an exact embodied value, and their exact sum. -/
lemma evalCandidate_some (strategy : String) (duration_s : ℚ) (r : Region) (ci : ℚ)
    (a : AgeClass) (sc : ℚ × Candidate)
    (h : evalCandidate strategy duration_s r ci a = Except.ok (some sc)) :
    sc.2.latency_ms = (REGION_DATACENTERS r).latency_ms ∧
    ∃ o e, sc.2.operational_co2_g = pyRound o 6 ∧ sc.2.embodied_co2_g = pyRound e 6 ∧
      sc.2.total_co2_g = pyRound (o + e) 6 := by
  unfold evalCandidate at h
  by_cases hav : (REGION_DATACENTERS r).available a ≤ 0
  · rw [if_pos hav] at h
    simp at h
  · rw [if_neg hav] at h
    cases ht : calculate_total_carbon a duration_s ci with
    | none => rw [ht] at h; exact Except.noConfusion h
    | some t =>
      obtain ⟨o, e, tt⟩ := t
      have hsum : tt = o + e := total_carbon_sum a duration_s ci o e tt ht
      rw [ht] at h
      simp only [] at h
      cases hpw : calculate_power_consumption BASE_POWER_W (SERVER_SPECS a).age_years
          EFFICIENCY_DEGRADATION_RATE with
      | none => rw [hpw] at h; exact Except.noConfusion h
      | some pw =>
        rw [hpw] at h
        simp only [Except.ok.injEq, Option.some.injEq] at h
        subst h
        exact ⟨rfl, o, e, rfl, rfl, by rw [hsum]⟩

/-- Every scored candidate of a successful scheduling run comes from a
region that passed the SLA filter and a successful candidate
evaluation. -/
lemma scheduleCandidates_mem (duration_s sla_ms : ℚ) (strategy : String)
    (live hist : Region → Option ℚ) (scored : List (ℚ × Candidate))
    (h : scheduleCandidates duration_s sla_ms strategy live hist = Except.ok scored)
    (sc : ℚ × Candidate) (hsc : sc ∈ scored) :
    ∃ r : Region, (REGION_DATACENTERS r).latency_ms ≤ sla_ms ∧
      ∃ a : AgeClass, evalCandidate strategy duration_s r (blendedCI live hist r) a
        = Except.ok (some sc) := by
  unfold scheduleCandidates at h
  simp only [] at h
  cases hm : mapE (evalRegion strategy duration_s live hist)
      (regionOrder.filter (fun r => decide ((REGION_DATACENTERS r).latency_ms ≤ sla_ms))) with
  | error e => rw [hm] at h; exact Except.noConfusion h
  | ok lists =>
    rw [hm] at h
    simp only [Except.ok.injEq] at h
    subst h
    rw [List.mem_flatten] at hsc
    obtain ⟨l, hl, hscl⟩ := hsc
    obtain ⟨r, hr, hfr⟩ := mapE_ok_mem hm hl
    have hrl : (REGION_DATACENTERS r).latency_ms ≤ sla_ms := by
      have := (List.mem_filter.mp hr).2
      simpa using this
    refine ⟨r, hrl, ?_⟩
    unfold evalRegion at hfr
    simp only [] at hfr
    cases ho : mapE (evalCandidate strategy duration_s r (blendedCI live hist r)) ageOrder with
    | error e => rw [ho] at hfr; exact Except.noConfusion hfr
    | ok opts =>
      rw [ho] at hfr
      simp only [Except.ok.injEq] at hfr
      subst hfr
      rw [List.mem_filterMap] at hscl
      obtain ⟨opt, hopt, hid⟩ := hscl
      obtain ⟨a, ha, hfa⟩ := mapE_ok_mem ho hopt
      refine ⟨a, ?_⟩
      rw [hfa]
      cases opt with
      | none => exact Option.noConfusion hid
      | some v =>
        obtain rfl : v = sc := by simpa using hid
        rfl

/-- With an SLA bound below every configured latency, the filter leaves
no region and the candidate set is empty. -/
lemma scheduleCandidates_empty (duration_s sla_ms : ℚ) (strategy : String)
    (live hist : Region → Option ℚ) (h : sla_ms < 70) :
    scheduleCandidates duration_s sla_ms strategy live hist = Except.ok [] := by
  have d1 : decide ((REGION_DATACENTERS Region.Northern).latency_ms ≤ sla_ms) = false :=
    decide_eq_false (not_le.mpr h)
  have d2 : decide ((REGION_DATACENTERS Region.Western).latency_ms ≤ sla_ms) = false :=
    decide_eq_false (not_le.mpr (h.trans (by norm_num [REGION_DATACENTERS])))
  have d3 : decide ((REGION_DATACENTERS Region.Southern).latency_ms ≤ sla_ms) = false :=
    decide_eq_false (not_le.mpr (h.trans (by norm_num [REGION_DATACENTERS])))
  have d4 : decide ((REGION_DATACENTERS Region.Eastern).latency_ms ≤ sla_ms) = false :=
    decide_eq_false (not_le.mpr (h.trans (by norm_num [REGION_DATACENTERS])))
  unfold scheduleCandidates
  simp only [regionOrder, List.filter_cons, List.filter_nil, d1, d2, d3, d4]
  simp [mapE]

/-- With an SLA bound below every configured latency, the scheduler
returns the Northern/medium fallback record with the explicit error. -/
lemma choose_region_fallback (duration_s sla_ms : ℚ) (strategy : String)
    (live hist : Region → Option ℚ) (h : sla_ms < 70) :
    choose_region_embodied_aware duration_s sla_ms strategy live hist = Except.ok
      { region := Region.Northern
        server_age := AgeClass.medium
        error := some "No servers met SLA constraints"
        chosen := none
        strategy := strategy
        duration_s := duration_s
        sla_ms := sla_ms
        top_3_alternatives := [] } := by
  unfold choose_region_embodied_aware
  rw [scheduleCandidates_empty duration_s sla_ms strategy live hist h]
  simp [pickBest]

/-- A chosen (non-fallback) placement is one of the scored candidates. -/
lemma choose_region_chosen_mem (duration_s sla_ms : ℚ) (strategy : String)
    (live hist : Region → Option ℚ) (res : ScheduleResult) (c : Candidate)
    (h : choose_region_embodied_aware duration_s sla_ms strategy live hist = Except.ok res)
    (hc : res.chosen = some c) :
    ∃ scored sc, scheduleCandidates duration_s sla_ms strategy live hist = Except.ok scored ∧
      sc ∈ scored ∧ sc.2 = c := by
  unfold choose_region_embodied_aware at h
  cases hm : scheduleCandidates duration_s sla_ms strategy live hist with
  | error e => rw [hm] at h; exact Except.noConfusion h
  | ok scored =>
    rw [hm] at h
    simp only [] at h
    cases hpb : pickBest scored with
    | none =>
      rw [hpb] at h
      simp only [Except.ok.injEq] at h
      subst h
      exact absurd hc (by simp)
    | some best =>
      rw [hpb] at h
      simp only [Except.ok.injEq] at h
      subst h
      simp only [Option.some.injEq] at hc
      exact ⟨scored, best, rfl, pickBest_mem hpb, hc⟩

/-- C1 (amended): the total-carbon evaluator always returns a triple
whose third component equals the sum of the first two exactly; in every
candidate record of the placement selector, however, the three carbon
fields are the 6-decimal ROUNDINGS of the exact operational value, the
exact embodied value and their exact sum, so the stored total is the
rounded sum of the exact values, not necessarily the sum of the two
stored (rounded) fields.  (The unamended claim fails on candidate
records, see the counterexample.) -/
theorem total_carbon_sum_invariant :
    (∀ (a : AgeClass) (dur ci : ℚ), 0 ≤ dur → 0 ≤ ci →
      ∃ o e t, calculate_total_carbon a dur ci = some (o, e, t) ∧ t = o + e) ∧
    (∀ (dur sla : ℚ) (strategy : String) (live hist : Region → Option ℚ)
      (scored : List (ℚ × Candidate)),
      scheduleCandidates dur sla strategy live hist = Except.ok scored →
      ∀ sc ∈ scored, ∃ o e, sc.2.operational_co2_g = pyRound o 6 ∧
        sc.2.embodied_co2_g = pyRound e 6 ∧ sc.2.total_co2_g = pyRound (o + e) 6) := by
  constructor
  · intro a dur ci hdur _
    exact ⟨operationalOf a dur ci, embodiedOf a dur,
      operationalOf a dur ci + embodiedOf a dur, total_carbon_config a dur ci hdur, rfl⟩
  · intro dur sla strategy live hist scored hok sc hsc
    obtain ⟨r, _, a, hev⟩ :=
      scheduleCandidates_mem dur sla strategy live hist scored hok sc hsc
    exact (evalCandidate_some strategy dur r (blendedCI live hist r) a sc hev).2

/-- C1 witness: the evaluator part instantiated at the new class,
3600 s, intensity 475. -/
theorem total_carbon_sum_invariant_witness :
    ∃ o e t, calculate_total_carbon AgeClass.new 3600 475 = some (o, e, t) ∧ t = o + e :=
  total_carbon_sum_invariant.1 AgeClass.new 3600 475 (by norm_num) (by norm_num)

/-- C5 (confirmed): with an SLA strictly below every configured latency
(all regions are at 70 ms or more) the scheduler returns the fallback
record tagged with the explicit "No servers met SLA constraints" error
and no chosen placement; in general a region whose latency exceeds the
SLA is never scored as a candidate, and any chosen placement satisfies
the SLA. -/
theorem sla_filter_no_viable_candidate :
    (∀ (duration_s sla_ms : ℚ) (strategy : String) (live hist : Region → Option ℚ),
      sla_ms < 70 →
      choose_region_embodied_aware duration_s sla_ms strategy live hist = Except.ok
        { region := Region.Northern
          server_age := AgeClass.medium
          error := some "No servers met SLA constraints"
          chosen := none
          strategy := strategy
          duration_s := duration_s
          sla_ms := sla_ms
          top_3_alternatives := [] }) ∧
    (∀ (duration_s sla_ms : ℚ) (strategy : String) (live hist : Region → Option ℚ)
      (scored : List (ℚ × Candidate)),
      scheduleCandidates duration_s sla_ms strategy live hist = Except.ok scored →
      ∀ sc ∈ scored, sc.2.latency_ms ≤ sla_ms) ∧
    (∀ (duration_s sla_ms : ℚ) (strategy : String) (live hist : Region → Option ℚ)
      (res : ScheduleResult) (c : Candidate),
      choose_region_embodied_aware duration_s sla_ms strategy live hist = Except.ok res →
      res.chosen = some c → c.latency_ms ≤ sla_ms) := by
  refine ⟨choose_region_fallback, ?_, ?_⟩
  · intro duration_s sla_ms strategy live hist scored hok sc hsc
    obtain ⟨r, hr, a, hev⟩ :=
      scheduleCandidates_mem duration_s sla_ms strategy live hist scored hok sc hsc
    rw [(evalCandidate_some strategy duration_s r (blendedCI live hist r) a sc hev).1]
    exact hr
  · intro duration_s sla_ms strategy live hist res c hok hc
    obtain ⟨scored, sc, hm, hmem, hsc⟩ :=
      choose_region_chosen_mem duration_s sla_ms strategy live hist res c hok hc
    obtain ⟨r, hr, a, hev⟩ :=
      scheduleCandidates_mem duration_s sla_ms strategy live hist scored hm sc hmem
    rw [← hsc, (evalCandidate_some strategy duration_s r (blendedCI live hist r) a sc hev).1]
    exact hr

/-- C5 witness: the fallback at SLA 50 ms (all regions are ≥ 70 ms). -/
theorem sla_filter_no_viable_candidate_witness :
    choose_region_embodied_aware 15 50 "balanced" (fun _ => none) (fun _ => none) = Except.ok
      { region := Region.Northern
        server_age := AgeClass.medium
        error := some "No servers met SLA constraints"
        chosen := none
        strategy := "balanced"
        duration_s := 15
        sla_ms := 50
        top_3_alternatives := [] } :=
  sla_filter_no_viable_candidate.1 15 50 "balanced" (fun _ => none) (fun _ => none)
    (by norm_num)

/-- Every configured region has a positive available count in every age
class, so the availability skip never triggers. -/
lemma region_avail_pos (r : Region) (a : AgeClass) :
    ¬ (REGION_DATACENTERS r).available a ≤ 0 := by
  cases r <;> cases a <;> decide

/-- For an available pair and a non-negative duration, the scheduler
loop body produces exactly the scoredCandidate pair. -/
lemma evalCandidate_ok (strategy : String) (duration_s : ℚ) (r : Region) (ci : ℚ)
    (a : AgeClass) (hav : ¬ (REGION_DATACENTERS r).available a ≤ 0) (hdur : 0 ≤ duration_s) :
    evalCandidate strategy duration_s r ci a
      = Except.ok (some (scoredCandidate strategy duration_s ci r a)) := by
  unfold evalCandidate
  rw [if_neg hav]
  simp only [total_carbon_config a duration_s ci hdur]
  simp only [power_consumption_eq BASE_POWER_W (SERVER_SPECS a).age_years
    EFFICIENCY_DEGRADATION_RATE (by norm_num [BASE_POWER_W])]
  rfl

/-- A region that passed the SLA filter contributes its three
age-class candidates in order. -/
lemma evalRegion_ok (strategy : String) (duration_s : ℚ) (live hist : Region → Option ℚ)
    (r : Region) (hdur : 0 ≤ duration_s) :
    evalRegion strategy duration_s live hist r = Except.ok
      [scoredCandidate strategy duration_s (blendedCI live hist r) r AgeClass.new,
       scoredCandidate strategy duration_s (blendedCI live hist r) r AgeClass.medium,
       scoredCandidate strategy duration_s (blendedCI live hist r) r AgeClass.old] := by
  have e1 := evalCandidate_ok strategy duration_s r (blendedCI live hist r) AgeClass.new
    (region_avail_pos r AgeClass.new) hdur
  have e2 := evalCandidate_ok strategy duration_s r (blendedCI live hist r) AgeClass.medium
    (region_avail_pos r AgeClass.medium) hdur
  have e3 := evalCandidate_ok strategy duration_s r (blendedCI live hist r) AgeClass.old
    (region_avail_pos r AgeClass.old) hdur
  unfold evalRegion
  simp only [ageOrder, mapE, e1, e2, e3]
  simp [List.filterMap]

/-- With a permissive SLA (≥ 120 ms) and a non-negative duration the
scheduler scores all 12 (region, age-class) pairs, in region then
age order. -/
lemma scheduleCandidates_all (duration_s sla_ms : ℚ) (strategy : String)
    (live hist : Region → Option ℚ) (hdur : 0 ≤ duration_s) (h70 : 70 ≤ sla_ms)
    (h80 : 80 ≤ sla_ms) (h90 : 90 ≤ sla_ms) (h120 : 120 ≤ sla_ms) :
    scheduleCandidates duration_s sla_ms strategy live hist = Except.ok
      [scoredCandidate strategy duration_s (blendedCI live hist Region.Northern)
        Region.Northern AgeClass.new,
       scoredCandidate strategy duration_s (blendedCI live hist Region.Northern)
        Region.Northern AgeClass.medium,
       scoredCandidate strategy duration_s (blendedCI live hist Region.Northern)
        Region.Northern AgeClass.old,
       scoredCandidate strategy duration_s (blendedCI live hist Region.Western)
        Region.Western AgeClass.new,
       scoredCandidate strategy duration_s (blendedCI live hist Region.Western)
        Region.Western AgeClass.medium,
       scoredCandidate strategy duration_s (blendedCI live hist Region.Western)
        Region.Western AgeClass.old,
       scoredCandidate strategy duration_s (blendedCI live hist Region.Southern)
        Region.Southern AgeClass.new,
       scoredCandidate strategy duration_s (blendedCI live hist Region.Southern)
        Region.Southern AgeClass.medium,
       scoredCandidate strategy duration_s (blendedCI live hist Region.Southern)
        Region.Southern AgeClass.old,
       scoredCandidate strategy duration_s (blendedCI live hist Region.Eastern)
        Region.Eastern AgeClass.new,
       scoredCandidate strategy duration_s (blendedCI live hist Region.Eastern)
        Region.Eastern AgeClass.medium,
       scoredCandidate strategy duration_s (blendedCI live hist Region.Eastern)
        Region.Eastern AgeClass.old] := by
  have d1 : decide ((REGION_DATACENTERS Region.Northern).latency_ms ≤ sla_ms) = true :=
    decide_eq_true h70
  have d2 : decide ((REGION_DATACENTERS Region.Western).latency_ms ≤ sla_ms) = true :=
    decide_eq_true h90
  have d3 : decide ((REGION_DATACENTERS Region.Southern).latency_ms ≤ sla_ms) = true :=
    decide_eq_true h80
  have d4 : decide ((REGION_DATACENTERS Region.Eastern).latency_ms ≤ sla_ms) = true :=
    decide_eq_true h120
  have e1 := evalRegion_ok strategy duration_s live hist Region.Northern hdur
  have e2 := evalRegion_ok strategy duration_s live hist Region.Western hdur
  have e3 := evalRegion_ok strategy duration_s live hist Region.Southern hdur
  have e4 := evalRegion_ok strategy duration_s live hist Region.Eastern hdur
  unfold scheduleCandidates
  simp only [regionOrder, List.filter_cons, List.filter_nil, d1, d2, d3, d4, if_true]
  simp only [mapE, e1, e2, e3, e4]
  simp [List.flatten]

/-- A scheduler run whose candidate list is non-empty returns a normal
placement: its result carries no error tag. -/
lemma choose_region_no_error (duration_s sla_ms : ℚ) (strategy : String)
    (live hist : Region → Option ℚ) (x : ℚ × Candidate) (l : List (ℚ × Candidate))
    (h : scheduleCandidates duration_s sla_ms strategy live hist = Except.ok (x :: l)) :
    (choose_region_embodied_aware duration_s sla_ms strategy live hist).map
      (fun res => res.error) = Except.ok none := by
  unfold choose_region_embodied_aware
  rw [h]
  simp only []
  cases hpb : pickBest (x :: l) with
  | none => exact absurd hpb (pickBest_cons_ne_none x l)
  | some best => simp [Except.map]

/-- Any strategy string other than the two named ones is scored by the
final else branch, i.e. exactly like "operational_only". -/
lemma scoreOf_unknown (strategy : String) (h1 : strategy ≠ "embodied_prioritized")
    (h2 : strategy ≠ "balanced") :
    scoreOf strategy = scoreOf "operational_only" := by
  funext o e t d l c
  unfold scoreOf
  rw [if_neg h1, if_neg h2, if_neg (by decide : ¬ ("operational_only" = "embodied_prioritized")),
    if_neg (by decide : ¬ ("operational_only" = "balanced"))]

/-- The candidate set of an unknown strategy is the candidate set of
"operational_only". -/
lemma scheduleCandidates_unknown_strategy (strategy : String)
    (h1 : strategy ≠ "embodied_prioritized") (h2 : strategy ≠ "balanced")
    (duration_s sla_ms : ℚ) (live hist : Region → Option ℚ) :
    scheduleCandidates duration_s sla_ms strategy live hist
      = scheduleCandidates duration_s sla_ms "operational_only" live hist := by
  unfold scheduleCandidates evalRegion evalCandidate
  simp only [scoreOf_unknown strategy h1 h2]

/-- C6 (amended): a strategy string outside {embodied_prioritized,
balanced, operational_only} does NOT fail with an invalid-argument
condition: the scheduler silently scores it with the operational_only
else branch, producing the same candidates and the same placement (up
to the echoed strategy field). -/
theorem unknown_strategy_scored_as_operational_only (strategy : String)
    (h1 : strategy ≠ "embodied_prioritized") (h2 : strategy ≠ "balanced")
    (duration_s sla_ms : ℚ) (live hist : Region → Option ℚ) :
    scheduleCandidates duration_s sla_ms strategy live hist
      = scheduleCandidates duration_s sla_ms "operational_only" live hist ∧
    choose_region_embodied_aware duration_s sla_ms strategy live hist
      = (choose_region_embodied_aware duration_s sla_ms "operational_only" live hist).map
          (fun res => { res with strategy := strategy }) := by
  have hs := scheduleCandidates_unknown_strategy strategy h1 h2 duration_s sla_ms live hist
  refine ⟨hs, ?_⟩
  unfold choose_region_embodied_aware
  rw [hs]
  cases hm : scheduleCandidates duration_s sla_ms "operational_only" live hist with
  | error e => rfl
  | ok scored =>
    simp only []
    cases hpb : pickBest scored with
    | some best => simp [Except.map]
    | none => simp [Except.map]

/-- C6 witness: the amended claim at the unknown strategy
"frobnicate". -/
theorem unknown_strategy_witness :
    scheduleCandidates 15 2000 "frobnicate" (fun _ => none) (fun _ => none)
      = scheduleCandidates 15 2000 "operational_only" (fun _ => none) (fun _ => none) ∧
    choose_region_embodied_aware 15 2000 "frobnicate" (fun _ => none) (fun _ => none)
      = (choose_region_embodied_aware 15 2000 "operational_only"
          (fun _ => none) (fun _ => none)).map
          (fun res => { res with strategy := "frobnicate" }) :=
  unknown_strategy_scored_as_operational_only "frobnicate" (by decide) (by decide)
    15 2000 (fun _ => none) (fun _ => none)

/-- C6 counterexample: called with the unrecognized strategy
"frobnicate" (duration 15 s, SLA 2000 ms), the scheduler returns a
normal placement with NO error condition of any kind, refuting the
claimed invalid-argument failure. -/
theorem unknown_strategy_no_failure_cex :
    (choose_region_embodied_aware 15 2000 "frobnicate"
        (fun _ => none) (fun _ => none)).map (fun res => res.error) = Except.ok none := by
  have hs := scheduleCandidates_unknown_strategy "frobnicate" (by decide) (by decide)
    15 2000 (fun _ => none) (fun _ => none)
  have hall := scheduleCandidates_all 15 2000 "operational_only"
    (fun _ => none) (fun _ => none) (by norm_num) (by norm_num) (by norm_num)
    (by norm_num) (by norm_num)
  exact choose_region_no_error 15 2000 "frobnicate" (fun _ => none) (fun _ => none)
    _ _ (hs.trans hall)

/-- C1 counterexample: a concrete scheduling call (duration
1461/13750000 s ≈ 0.000106 s, SLA 2000 ms, both intensity readings
49500000000/301988700 ≈ 163.9) whose first candidate record stores
operational_co2_g = 0 and embodied_co2_g = 0 (each exact value 4e-7
rounds to 0 at 6 decimals) but total_co2_g = 1e-6 (the exact sum 8e-7
rounds up), so total_co2_g ≠ operational_co2_g + embodied_co2_g inside
the record. -/
theorem candidate_total_rounding_cex :
    (scheduleCandidates (1461/13750000) 2000 "balanced"
        (fun _ => some (49500000000/301988700)) (fun _ => some (49500000000/301988700))).map
      (fun scored => scored.head?.map
        (fun sc => (sc.2.operational_co2_g, sc.2.embodied_co2_g, sc.2.total_co2_g)))
      = Except.ok (some (0, 0, 1/1000000)) ∧ ((0:ℚ) + 0 ≠ 1/1000000) := by
  refine ⟨?_, by norm_num⟩
  rw [scheduleCandidates_all (1461/13750000) 2000 "balanced"
    (fun _ => some (49500000000/301988700)) (fun _ => some (49500000000/301988700))
    (by norm_num) (by norm_num) (by norm_num) (by norm_num) (by norm_num)]
  simp only [Except.map, List.head?, Option.map]
  norm_num [scoredCandidate, operationalOf, embodiedOf, embodiedGrams,
    calculate_operational_carbon, powerFormula, blendedCI, pyOr, SERVER_SPECS,
    REGION_DATACENTERS, BASE_POWER_W, EFFICIENCY_DEGRADATION_RATE, PUE_DEFAULT,
    calculate_carbon_debt_ratio, pyRound, roundHalfEven, min_def, max_def]

/-- C8 (code bug): analyze_hardware_replacement NEVER returns its result
record: for every region, every pair of age classes and every intensity
provider it raises KeyError("base_power_w"), because the result dict
reads new_specs["base_power_w"] (line 531) while SERVER_SPECS entries
store no such key (power is calculated, not stored — see the module's
own note at lines 32-33, and the __main__ demo at lines 585-610 which
expects the returned record).  The should_replace comparison computed
before the crash does match the claim (break-even < remaining life), but
the function aborts before returning it. -/
theorem analyze_replacement_always_keyerror (region : Region) (old_age new_age : AgeClass)
    (live hist : Region → Option ℚ) :
    analyze_hardware_replacement region old_age new_age live hist
      = Except.error (PyError.keyError "base_power_w") := by
  have hkgn : (SERVER_SPECS new_age).total_embodied_kg = 660 := by cases new_age <;> rfl
  have hkgo : (SERVER_SPECS old_age).total_embodied_kg = 660 := by cases old_age <;> rfl
  have hLo : (SERVER_SPECS old_age).expected_lifetime_years = 5 := by cases old_age <;> rfl
  have hao : 0 ≤ (SERVER_SPECS old_age).age_years ∧ (SERVER_SPECS old_age).age_years ≤ 5 := by
    cases old_age <;> norm_num [SERVER_SPECS]
  unfold analyze_hardware_replacement
  simp only [break_even_closed]
  by_cases hs : (powerFormula BASE_POWER_W (SERVER_SPECS old_age).age_years
        EFFICIENCY_DEGRADATION_RATE / 1000
      - powerFormula BASE_POWER_W (1/2) EFFICIENCY_DEGRADATION_RATE / 1000)
      * blendedCI live hist region * PUE_DEFAULT ≤ 0
  · rw [if_pos hs]
  · rw [if_neg hs]
    simp only []
    set ci2 := blendedCI live hist region with hci2
    set ratio := calculate_carbon_debt_ratio (SERVER_SPECS old_age).age_years
      (SERVER_SPECS old_age).expected_lifetime_years with hratio
    set sv := (powerFormula BASE_POWER_W (SERVER_SPECS old_age).age_years
        EFFICIENCY_DEGRADATION_RATE / 1000
      - powerFormula BASE_POWER_W (1/2) EFFICIENCY_DEGRADATION_RATE / 1000) * ci2 * PUE_DEFAULT
      with hsv
    set be := ((SERVER_SPECS new_age).total_embodied_kg * 1000 * NEW_HARDWARE_CARBON_MULTIPLIER
      - (SERVER_SPECS old_age).total_embodied_kg * 1000 * ratio) / sv with hbe
    set rem := ((SERVER_SPECS old_age).expected_lifetime_years
      - (SERVER_SPECS old_age).age_years) * (1461/4) * 24 with hrem
    set th := if be < rem then rem else be with hth
    have hsv0 : 0 < sv := not_le.mp hs
    have hratio1 : ratio ≤ 1 := by
      rw [hratio, hLo]
      exact debt_ratio_le_one _ 5 (by norm_num) hao.1
    have hnum : 0 ≤ (SERVER_SPECS new_age).total_embodied_kg * 1000 *
        NEW_HARDWARE_CARBON_MULTIPLIER
        - (SERVER_SPECS old_age).total_embodied_kg * 1000 * ratio := by
      rw [hkgn, hkgo]
      norm_num [NEW_HARDWARE_CARBON_MULTIPLIER]
      linarith
    have hbe0 : 0 ≤ be := by
      rw [hbe]
      exact div_nonneg hnum hsv0.le
    have hrem0 : 0 ≤ rem := by
      rw [hrem, hLo]
      nlinarith [hao.2]
    have hth0 : 0 ≤ th := by
      rw [hth]
      split
      · exact hrem0
      · exact hbe0
    have hdur : 0 ≤ th * 3600 := mul_nonneg hth0 (by norm_num)
    have htc1 := total_carbon_config old_age (th * 3600) ci2 hdur
    have htc2 := total_carbon_config new_age (th * 3600) ci2 hdur
    simp only [htc1, htc2, power_consumption_eq BASE_POWER_W (SERVER_SPECS old_age).age_years
      EFFICIENCY_DEGRADATION_RATE (by norm_num [BASE_POWER_W])]
    simp [specField]

end CarbonSched
